import Mathlib

/-! # bxzstr: the zstd stream wrapper (`include/zstd_stream_wrapper.hpp`)

A shallow embedding of `bxz::detail::zstd_stream_wrapper` and of the exception
class `bxz::zstdException`.

Conventions of the embedding (LP64 target):

* `size_t` is a 64-bit unsigned integer, a natural number below `2 ^ 64`
  (`Fin (2 ^ 64)`); its subtraction is the modular one of C++.
* `long` is a 64-bit signed integer, embedded in `Int`; the conversions
  `size_t -> long` (`toLong`) and `long -> size_t` (`ofLong`) are the
  two's-complement ones.
* `int` is a 32-bit signed integer; `(int)ret` is the two's-complement
  narrowing `toInt`.
* a pointer is an address, a natural number; `p + n` on a `uint8_t*` is the
  address `p + n` (pointer arithmetic is not modular in C++), and `NULL` is `0`.
* the zstd library is not part of the repository: its entry points are the
  fields of `ZstdApi` and the theorems hold for every behaviour of them; a
  fact of the library a theorem needs is a hypothesis of that theorem.
-/

namespace bxz

/-- C++ `size_t` on an LP64 target. -/
abbrev size_t := Fin (2 ^ 64)

/-- Conversion `size_t -> long` (two's complement). -/
def toLong (x : size_t) : Int :=
  if x.val < 2 ^ 63 then (x.val : Int) else (x.val : Int) - 2 ^ 64

/-- Conversion `long -> size_t` (reduction modulo `2 ^ 64`). -/
def ofLong (z : Int) : size_t :=
  ⟨(z % 2 ^ 64).toNat, by
    have h1 : 0 ≤ z % 2 ^ 64 := Int.emod_nonneg _ (by norm_num)
    have h2 : z % 2 ^ 64 < 2 ^ 64 := Int.emod_lt_of_pos _ (by norm_num)
    omega⟩

/-- The value a 64-bit `long` holds for the integer `z` (two's-complement
wrap into `[-2 ^ 63, 2 ^ 63)`). -/
def wrapLong (z : Int) : Int := toLong (ofLong z)

/-- Conversion `size_t -> int`, the cast `(int)ret` (two's complement, 32 bits). -/
def toInt (x : size_t) : Int :=
  if x.val % 2 ^ 32 < 2 ^ 31 then ((x.val % 2 ^ 32 : Nat) : Int)
  else ((x.val % 2 ^ 32 : Nat) : Int) - 2 ^ 32

/-- Conversion `bool -> size_t`, as in `this->ret = (input.pos == input.size)`. -/
def ofBool (b : Bool) : size_t := if b then 1 else 0

/-- Exception class thrown by failed zstd operations: built either from a
native error code (`zstdException(const size_t err)`) or from a message
(`zstdException(const std::string msg)`). -/
inductive zstdException where
  | ofCode (err : size_t)
  | ofMsg (msg : String)
  deriving DecidableEq, Repr

/-- The `ZSTD_inBuffer` of zstd: `{ src, size, pos }`. -/
structure ZSTD_inBuffer where
  src : Nat
  size : size_t
  pos : size_t
  deriving DecidableEq, Repr

/-- The `ZSTD_outBuffer` of zstd: `{ dst, size, pos }`. -/
structure ZSTD_outBuffer where
  dst : Nat
  size : size_t
  pos : size_t
  deriving DecidableEq, Repr

/-- What one native streaming call on an output and an input buffer leaves
behind: its return value and the `pos` fields it wrote (the library updates
no other field of the two buffers). -/
structure StreamResult where
  ret : size_t
  outPos : size_t
  inPos : size_t
  deriving DecidableEq, Repr

/-- What `ZSTD_endStream`, which is given the output buffer only, leaves
behind: its return value and `output.pos`. -/
structure EndResult where
  ret : size_t
  outPos : size_t
  deriving DecidableEq, Repr

/-- The directive `ZSTD_e_continue` of zstd's `ZSTD_EndDirective`. -/
def ZSTD_e_continue : Nat := 0

/-- The parameter `ZSTD_c_compressionLevel` of zstd's `ZSTD_cParameter`. -/
def ZSTD_c_compressionLevel : Nat := 100

/-- The native contexts of the zstd library that are alive: created and not
yet freed. -/
structure ZstdLib where
  dctxs : List Nat
  cctxs : List Nat
  deriving DecidableEq, Repr

/-- The entry points of the zstd library the wrapper calls. The wrapper
never looks behind a context pointer and every operation makes one native
call, so a native call is an arbitrary function of what the wrapper passes. -/
structure ZstdApi where
  ZSTD_isError : size_t → Bool
  ZSTD_decompressStream : (dctx : Nat) → ZSTD_outBuffer → ZSTD_inBuffer → StreamResult
  ZSTD_compressStream2 : (cctx : Nat) → ZSTD_outBuffer → ZSTD_inBuffer → (endOp : Nat) →
    StreamResult
  ZSTD_endStream : (cctx : Nat) → ZSTD_outBuffer → EndResult
  ZSTD_CCtx_setParameter : (cctx : Nat) → (param : Nat) → (value : Int) → size_t
  newDCtx : ZstdLib → Nat
  newCCtx : ZstdLib → Nat

/-- The call `ZSTD_createDCtx()`: the library hands out the pointer `api.newDCtx lib`;
`NULL` (`0`) means that the allocation failed, any other pointer is a decoder
context that is alive from now on. -/
def ZSTD_createDCtx (api : ZstdApi) (lib : ZstdLib) : Nat × ZstdLib :=
  let p := api.newDCtx lib
  if p = 0 then (0, lib) else (p, { lib with dctxs := p :: lib.dctxs })

/-- The call `ZSTD_createCCtx()`: as `ZSTD_createDCtx`, for an encoder context. -/
def ZSTD_createCCtx (api : ZstdApi) (lib : ZstdLib) : Nat × ZstdLib :=
  let p := api.newCCtx lib
  if p = 0 then (0, lib) else (p, { lib with cctxs := p :: lib.cctxs })

/-- The call `ZSTD_freeDCtx(dctx)`: the decoder context is alive no more. -/
def ZSTD_freeDCtx (dctx : Nat) (lib : ZstdLib) : ZstdLib :=
  { lib with dctxs := lib.dctxs.erase dctx }

/-- The call `ZSTD_freeCCtx(cctx)`: the encoder context is alive no more. -/
def ZSTD_freeCCtx (cctx : Nat) (lib : ZstdLib) : ZstdLib :=
  { lib with cctxs := lib.cctxs.erase cctx }

/-- The private members of `zstd_stream_wrapper`. -/
structure zstd_stream_wrapper where
  is_input : Bool
  ret : size_t
  dctx : Nat
  cctx : Nat
  buffInSize : size_t
  buffIn : Nat
  buffOutSize : size_t
  buffOut : Nat
  deriving DecidableEq, Repr

/-- How a member function ends: it returns its `int` status or it throws. -/
inductive Outcome where
  | returned (status : Int)
  | thrown (e : zstdException)
  deriving DecidableEq, Repr

/-- How the constructor ends: the object exists, or the constructor threw
and there is no object. -/
inductive Constructed where
  | object (self : zstd_stream_wrapper)
  | thrown (e : zstdException)
  deriving DecidableEq, Repr

namespace zstd_stream_wrapper

/-- The query `bool stream_end() const { return this->ret == 0; }`. -/
def stream_end (self : zstd_stream_wrapper) : Bool := decide (self.ret = 0)

/-- The query `bool done() const { return this->stream_end(); }`. -/
def done (self : zstd_stream_wrapper) : Bool := self.stream_end

/-- The accessor `const uint8_t* next_in() const`, the pointer `buffIn`. -/
def next_in (self : zstd_stream_wrapper) : Nat := self.buffIn

/-- The accessor `long avail_in() const { return this->buffInSize; }`. -/
def avail_in (self : zstd_stream_wrapper) : Int := toLong self.buffInSize

/-- The accessor `uint8_t* next_out() const`, the pointer `buffOut`. -/
def next_out (self : zstd_stream_wrapper) : Nat := self.buffOut

/-- The accessor `long avail_out() const { return this->buffOutSize; }`. -/
def avail_out (self : zstd_stream_wrapper) : Int := toLong self.buffOutSize

/-- The setter `void set_next_in(const unsigned char* in) { this->buffIn = (void*)in; }`. -/
def set_next_in (self : zstd_stream_wrapper) (p : Nat) : zstd_stream_wrapper :=
  { self with buffIn := p }

/-- The setter `void set_avail_in(long in) { this->buffInSize = in; }`. -/
def set_avail_in (self : zstd_stream_wrapper) (n : Int) : zstd_stream_wrapper :=
  { self with buffInSize := ofLong n }

/-- The setter `void set_next_out(const uint8_t* in) { this->buffOut = (void*)in; }`. -/
def set_next_out (self : zstd_stream_wrapper) (p : Nat) : zstd_stream_wrapper :=
  { self with buffOut := p }

/-- The setter `void set_avail_out(long in) { this->buffOutSize = in; }`. -/
def set_avail_out (self : zstd_stream_wrapper) (n : Int) : zstd_stream_wrapper :=
  { self with buffOutSize := ofLong n }

/-- The expression `avail - pos` with `avail : long` and `pos : size_t`: the
`long` is converted to `size_t`, the subtraction is the unsigned one, and the
result is converted back when it is passed to a `long` parameter. -/
def subPos (avail : Int) (pos : size_t) : Int := toLong (ofLong avail - pos)

/-- The member `int decompress(const int = 0)` (its parameter is unnamed and
unused): one call of `ZSTD_decompressStream`,
then the error check, then the update of the four cursors. -/
def decompress (api : ZstdApi) (self : zstd_stream_wrapper) :
    Outcome × zstd_stream_wrapper :=
  let input : ZSTD_inBuffer := ⟨self.buffIn, self.buffInSize, 0⟩
  let output : ZSTD_outBuffer := ⟨self.buffOut, self.buffOutSize, 0⟩
  let r := api.ZSTD_decompressStream self.dctx output input
  let output := { output with pos := r.outPos }
  let input := { input with pos := r.inPos }
  let self := { self with ret := r.ret }
  if api.ZSTD_isError self.ret then (.thrown (.ofCode self.ret), self) else
  let self := self.set_next_out (self.next_out + output.pos.val)
  let self := self.set_avail_out (subPos self.avail_out output.pos)
  let self := self.set_next_in (self.next_in + input.pos.val)
  let self := self.set_avail_in (subPos self.avail_in input.pos)
  (.returned (toInt self.ret), self)

/-- The member `int compress(const int endStream)`: with `endStream` non-zero
one call of `ZSTD_endStream`, otherwise one call of `ZSTD_compressStream2` with
`ZSTD_e_continue`, followed by the update of the input cursor and the
overwriting of `ret` by `input.pos == input.size`; then, in both modes, the
update of the output cursor. -/
def compress (api : ZstdApi) (self : zstd_stream_wrapper) (endStream : Int) :
    Outcome × zstd_stream_wrapper :=
  let input : ZSTD_inBuffer := ⟨self.buffIn, self.buffInSize, 0⟩
  let output : ZSTD_outBuffer := ⟨self.buffOut, self.buffOutSize, 0⟩
  if endStream ≠ 0 then
    let r := api.ZSTD_endStream self.cctx output
    let output := { output with pos := r.outPos }
    let self := { self with ret := r.ret }
    if api.ZSTD_isError self.ret then (.thrown (.ofCode self.ret), self) else
    let self := self.set_next_out (self.next_out + output.pos.val)
    let self := self.set_avail_out (subPos self.avail_out output.pos)
    (.returned (toInt self.ret), self)
  else
    let r := api.ZSTD_compressStream2 self.cctx output input ZSTD_e_continue
    let output := { output with pos := r.outPos }
    let input := { input with pos := r.inPos }
    let self := { self with ret := r.ret }
    if api.ZSTD_isError self.ret then (.thrown (.ofCode self.ret), self) else
    let self := self.set_next_in (self.next_in + input.pos.val)
    let self := self.set_avail_in (subPos self.avail_in input.pos)
    let self := { self with ret := ofBool (decide (input.pos = input.size)) }
    let self := self.set_next_out (self.next_out + output.pos.val)
    let self := self.set_avail_out (subPos self.avail_out output.pos)
    (.returned (toInt self.ret), self)

/-- The constructor
`zstd_stream_wrapper(const bool _is_input, const int _level, const int)`.
`mem` is the content of the object's storage when the constructor starts: the
only member with an initialiser is `is_input`, the others hold what `mem`
holds until the body assigns them (the third, unnamed `int` parameter is
unused). The check `ZSTD_isError(this->ret)` that ends the body is reached
from both directions. A `throw` leaves the constructor at once; the
destructor of an object whose constructor threw is not run, and the members
are raw pointers, so nothing is freed on that path. -/
def construct (api : ZstdApi) (mem : zstd_stream_wrapper) ( _is_input : Bool)
    ( _level : Int) (lib : ZstdLib) : Constructed × ZstdLib :=
  let self := { mem with is_input := _is_input }
  if self.is_input then
    let (p, lib) := ZSTD_createDCtx api lib
    let self := { self with dctx := p }
    if self.dctx = 0 then (.thrown (.ofMsg "ZSTD_createDCtx() failed!"), lib) else
    -- if (ZSTD_isError(this->ret)) throw zstdException(this->ret);
    if api.ZSTD_isError self.ret then (.thrown (.ofCode self.ret), lib) else
    (.object self, lib)
  else
    let (p, lib) := ZSTD_createCCtx api lib
    let self := { self with cctx := p }
    if self.cctx = 0 then (.thrown (.ofMsg "ZSTD_createCCtx() failed!"), lib) else
    let self := { self with
      ret := api.ZSTD_CCtx_setParameter self.cctx ZSTD_c_compressionLevel _level }
    -- if (ZSTD_isError(this->ret)) throw zstdException(this->ret);
    if api.ZSTD_isError self.ret then (.thrown (.ofCode self.ret), lib) else
    (.object self, lib)

/-- The destructor `~zstd_stream_wrapper()`. -/
def destroy (self : zstd_stream_wrapper) (lib : ZstdLib) : ZstdLib :=
  if self.is_input then ZSTD_freeDCtx self.dctx lib else ZSTD_freeCCtx self.cctx lib

end zstd_stream_wrapper

/-- The three stream operations of the wrapper. -/
inductive Op where
  | decompress
  | compress (endStream : Int)
  deriving DecidableEq, Repr

/-- One call of a stream operation. -/
def Op.run (api : ZstdApi) (op : Op) (self : zstd_stream_wrapper) :
    Outcome × zstd_stream_wrapper :=
  match op with
  | .decompress => self.decompress api
  | .compress endStream => self.compress api endStream

/-- The result of the native streaming call that the operation `op` makes in
the state `self`: `ret` is the value the call returns, `inPos` is `input.pos`
after it (the bytes consumed) and `outPos` is `output.pos` after it (the bytes
produced). `ZSTD_endStream` is given no input buffer, so `input.pos` keeps its
initial value `0` in the finalizing mode. -/
def Op.native (api : ZstdApi) (op : Op) (self : zstd_stream_wrapper) : StreamResult :=
  let input : ZSTD_inBuffer := ⟨self.buffIn, self.buffInSize, 0⟩
  let output : ZSTD_outBuffer := ⟨self.buffOut, self.buffOutSize, 0⟩
  match op with
  | .decompress => api.ZSTD_decompressStream self.dctx output input
  | .compress endStream =>
    if endStream ≠ 0 then
      let r := api.ZSTD_endStream self.cctx output
      ⟨r.ret, r.outPos, 0⟩
    else api.ZSTD_compressStream2 self.cctx output input ZSTD_e_continue

/-- The error predicate of the zstd library (`ZSTD_isError`): the error codes
are the `ZSTD_error_maxCode - 1 = 119` largest values of `size_t`. Used for
the concrete instances below only. -/
def zstdIsError (code : size_t) : Bool := decide (2 ^ 64 - 120 < code.val)

/-- A library whose streaming calls all leave `r` behind, whose
`ZSTD_CCtx_setParameter` returns `sp` and whose allocations return `p`. -/
def constApi (r : StreamResult) (sp : size_t) (p : Nat) : ZstdApi where
  ZSTD_isError := zstdIsError
  ZSTD_decompressStream := fun _ _ _ => r
  ZSTD_compressStream2 := fun _ _ _ _ => r
  ZSTD_endStream := fun _ _ => ⟨r.ret, r.outPos⟩
  ZSTD_CCtx_setParameter := fun _ _ _ => sp
  newDCtx := fun _ => p
  newCCtx := fun _ => p

/-- The value of `ret` after a call of `op` that returned: the native return
value, except after a non-finalizing `compress`, which overwrites it by
`input.pos == input.size`. -/
def Op.retAfter (api : ZstdApi) (op : Op) (self : zstd_stream_wrapper) : size_t :=
  if op = .compress 0 then ofBool (decide ((op.native api self).inPos = self.buffInSize))
  else (op.native api self).ret

/-- A wrapper with 10 bytes of input at address 1000 and 20 bytes of output
room at address 2000. -/
def demoState : zstd_stream_wrapper :=
  { is_input := true, ret := 0, dctx := 1, cctx := 2,
    buffInSize := 10, buffIn := 1000, buffOutSize := 20, buffOut := 2000 }

/-- Storage whose bytes are all `0xFF` where the member `ret` will live. -/
def staleStorage : zstd_stream_wrapper :=
  { is_input := false, ret := 18446744073709551615, dctx := 0, cctx := 0,
    buffInSize := 0, buffIn := 0, buffOutSize := 0, buffOut := 0 }

/-! ## Machine arithmetic -/

theorem ofLong_toLong (x : size_t) : ofLong (toLong x) = x := by
  apply Fin.ext
  simp only [ofLong, toLong]
  split <;> omega

theorem toLong_ofLong_of_range (z : Int) (h1 : -(2 ^ 63) ≤ z) (h2 : z < 2 ^ 63) :
    toLong (ofLong z) = z := by
  simp only [ofLong, toLong]
  split <;> omega

theorem toLong_range (x : size_t) : -(2 ^ 63) ≤ toLong x ∧ toLong x < 2 ^ 63 := by
  simp only [toLong]
  split <;> omega

theorem toLong_eq_zero (x : size_t) : toLong x = 0 ↔ x = 0 := by
  constructor
  · intro h
    apply Fin.ext
    simp only [toLong] at h
    split at h <;> simp <;> omega
  · intro h
    subst h
    simp [toLong]

theorem sub_val (a p : size_t) : (a - p).val = (2 ^ 64 - p.val + a.val) % 2 ^ 64 := by
  rw [Fin.sub_def]

theorem toLong_sub_eq_wrap (a p : size_t) :
    toLong (a - p) = wrapLong (toLong a - (p.val : Int)) := by
  have h : a - p = ofLong (toLong a - (p.val : Int)) := by
    apply Fin.ext
    rw [sub_val]
    simp only [ofLong, toLong]
    split <;> omega
  rw [wrapLong, ← h]

theorem toLong_sub_exact (a p : size_t) (h0 : 0 ≤ toLong a) (hp : p ≤ a) :
    toLong (a - p) = toLong a - (p.val : Int) ∧ 0 ≤ toLong (a - p) := by
  have hle : p.val ≤ a.val := hp
  have hv := sub_val a p
  simp only [toLong] at h0 ⊢
  rw [hv]
  split at h0 <;> split <;> omega

/-! ## The stream operations in closed form -/

open zstd_stream_wrapper

theorem run_not_error (api : ZstdApi) (op : Op) (s : zstd_stream_wrapper)
    (hne : api.ZSTD_isError (op.native api s).ret = false) :
    op.run api s =
      (.returned (toInt (op.retAfter api s)),
       { s with
         ret := op.retAfter api s
         buffIn := s.buffIn + (op.native api s).inPos.val
         buffInSize := s.buffInSize - (op.native api s).inPos
         buffOut := s.buffOut + (op.native api s).outPos.val
         buffOutSize := s.buffOutSize - (op.native api s).outPos }) := by
  cases op with
  | decompress =>
    simp only [Op.native] at hne
    simp [Op.run, Op.native, Op.retAfter, decompress, hne, set_next_in, set_next_out,
      set_avail_in, set_avail_out, next_in, next_out, avail_in, avail_out, subPos,
      ofLong_toLong]
  | compress e =>
    by_cases he : e = 0
    · subst he
      simp only [Op.native, ne_eq, not_true_eq_false, if_false] at hne
      simp [Op.run, Op.native, Op.retAfter, compress, hne, set_next_in, set_next_out,
        set_avail_in, set_avail_out, next_in, next_out, avail_in, avail_out, subPos,
        ofLong_toLong]
    · simp only [Op.native, ne_eq, he, not_false_eq_true, if_true] at hne
      simp [Op.run, Op.native, Op.retAfter, compress, hne, he, set_next_out,
        set_avail_out, next_out, avail_out, subPos, ofLong_toLong]

theorem run_error (api : ZstdApi) (op : Op) (s : zstd_stream_wrapper)
    (he : api.ZSTD_isError (op.native api s).ret = true) :
    op.run api s =
      (.thrown (.ofCode (op.native api s).ret), { s with ret := (op.native api s).ret }) := by
  cases op with
  | decompress =>
    simp only [Op.native] at he
    simp [Op.run, Op.native, decompress, he]
  | compress e =>
    by_cases h0 : e = 0
    · subst h0
      simp only [Op.native, ne_eq, not_true_eq_false, if_false] at he
      simp [Op.run, Op.native, compress, he]
    · simp only [Op.native, ne_eq, h0, not_false_eq_true, if_true] at he
      simp [Op.run, Op.native, compress, he, h0]

theorem returned_not_error (api : ZstdApi) (op : Op) (s s' : zstd_stream_wrapper) (st : Int)
    (h : op.run api s = (.returned st, s')) :
    api.ZSTD_isError (op.native api s).ret = false := by
  cases hb : api.ZSTD_isError (op.native api s).ret with
  | false => rfl
  | true =>
    rw [run_error api op s hb] at h
    simp at h

theorem thrown_is_error (api : ZstdApi) (op : Op) (s : zstd_stream_wrapper)
    (e : zstdException) (h : (op.run api s).1 = .thrown e) :
    api.ZSTD_isError (op.native api s).ret = true := by
  cases hb : api.ZSTD_isError (op.native api s).ret with
  | true => rfl
  | false =>
    rw [run_not_error api op s hb] at h
    simp at h

/-! ## Byte accounting (C1, C7) -/

/-- C1. Byte accounting: after every call of `decompress`, `compress(0)` or
`compress(endStream)` with `endStream != 0` that returns, the input cursor has
advanced by the `input.pos` of the native call (`0` for the finalizing call),
the output cursor by its `output.pos`, and both remaining lengths have shrunk
by the same amounts, the subtraction being the 64-bit one of the code
(`wrapLong`); the new length is the exact integer difference whenever that
difference is a value of `long`. -/
theorem byte_accounting (api : ZstdApi) (op : Op) (s s' : zstd_stream_wrapper) (st : Int)
    (h : op.run api s = (.returned st, s')) :
    s'.next_in = s.next_in + (op.native api s).inPos.val ∧
    s'.avail_in = wrapLong (s.avail_in - ((op.native api s).inPos.val : Int)) ∧
    s'.next_out = s.next_out + (op.native api s).outPos.val ∧
    s'.avail_out = wrapLong (s.avail_out - ((op.native api s).outPos.val : Int)) ∧
    (-(2 ^ 63) ≤ s.avail_in - ((op.native api s).inPos.val : Int) →
      s'.avail_in = s.avail_in - ((op.native api s).inPos.val : Int)) ∧
    (-(2 ^ 63) ≤ s.avail_out - ((op.native api s).outPos.val : Int) →
      s'.avail_out = s.avail_out - ((op.native api s).outPos.val : Int)) := by
  rw [run_not_error api op s (returned_not_error api op s s' st h)] at h
  obtain ⟨-, rfl⟩ := Prod.mk.inj h
  simp only [next_in, next_out, avail_in, avail_out, toLong_sub_eq_wrap]
  refine ⟨trivial, trivial, trivial, trivial, ?_, ?_⟩
  · intro hlo
    have hr := toLong_range s.buffInSize
    exact toLong_ofLong_of_range _ hlo (by omega)
  · intro hlo
    have hr := toLong_range s.buffOutSize
    exact toLong_ofLong_of_range _ hlo (by omega)

theorem byte_accounting_witness :
    Op.run (constApi ⟨0, 3, 5⟩ 0 7) .decompress demoState =
        (.returned 0, { demoState with
          buffInSize := 5, buffIn := 1005, buffOutSize := 17, buffOut := 2003 }) ∧
      ((1005 : Nat) = demoState.next_in + 5 ∧ (5 : Int) = wrapLong (demoState.avail_in - 5) ∧
        (2003 : Nat) = demoState.next_out + 3 ∧
        (17 : Int) = wrapLong (demoState.avail_out - 3) ∧
        (-(2 ^ 63) ≤ demoState.avail_in - 5 → (5 : Int) = demoState.avail_in - 5) ∧
        (-(2 ^ 63) ≤ demoState.avail_out - 3 → (17 : Int) = demoState.avail_out - 3)) :=
  ⟨by decide,
   byte_accounting (constApi ⟨0, 3, 5⟩ 0 7) .decompress demoState
    { demoState with buffInSize := 5, buffIn := 1005, buffOutSize := 17, buffOut := 2003 }
    0 (by decide)⟩

/-- C7. Buffer conservation: when a call that returns was made with
non-negative `avail_in()` and `avail_out()` and the native call reports
`input.pos` at most the input size and `output.pos` at most the output size it
was given, the new `avail_in()` and `avail_out()` are non-negative, they are
the old ones minus the bytes consumed and produced with no wraparound, and
`next_in + avail_in` and `next_out + avail_out` are what they were. -/
theorem buffer_conservation (api : ZstdApi) (op : Op) (s s' : zstd_stream_wrapper) (st : Int)
    (h : op.run api s = (.returned st, s'))
    (hin : 0 ≤ s.avail_in) (hout : 0 ≤ s.avail_out)
    (hc : (op.native api s).inPos.val ≤ s.buffInSize.val)
    (hp : (op.native api s).outPos.val ≤ s.buffOutSize.val) :
    0 ≤ s'.avail_in ∧ 0 ≤ s'.avail_out ∧
    s'.avail_in = s.avail_in - ((op.native api s).inPos.val : Int) ∧
    s'.avail_out = s.avail_out - ((op.native api s).outPos.val : Int) ∧
    (s'.next_in : Int) + s'.avail_in = (s.next_in : Int) + s.avail_in ∧
    (s'.next_out : Int) + s'.avail_out = (s.next_out : Int) + s.avail_out := by
  rw [run_not_error api op s (returned_not_error api op s s' st h)] at h
  obtain ⟨-, rfl⟩ := Prod.mk.inj h
  simp only [next_in, next_out, avail_in, avail_out] at hin hout ⊢
  obtain ⟨e1, n1⟩ := toLong_sub_exact s.buffInSize (op.native api s).inPos hin hc
  obtain ⟨e2, n2⟩ := toLong_sub_exact s.buffOutSize (op.native api s).outPos hout hp
  refine ⟨n1, n2, e1, e2, ?_, ?_⟩
  · rw [e1]; push_cast; ring
  · rw [e2]; push_cast; ring

theorem buffer_conservation_witness :
    (Op.run (constApi ⟨9, 20, 4⟩ 0 7) (.compress 0) demoState =
        (.returned 0, { demoState with
          buffInSize := 6, buffIn := 1004, buffOutSize := 0, buffOut := 2020 }) ∧
      0 ≤ demoState.avail_in ∧ 0 ≤ demoState.avail_out ∧
      (4 : Nat) ≤ demoState.buffInSize.val ∧ (20 : Nat) ≤ demoState.buffOutSize.val) ∧
      ((0 : Int) ≤ 6 ∧ (0 : Int) ≤ 0 ∧ (6 : Int) = demoState.avail_in - 4 ∧
        (0 : Int) = demoState.avail_out - 20 ∧
        (1004 : Int) + 6 = (demoState.next_in : Int) + demoState.avail_in ∧
        (2020 : Int) + 0 = (demoState.next_out : Int) + demoState.avail_out) :=
  ⟨⟨by decide, by decide, by decide, by decide, by decide⟩,
   buffer_conservation (constApi ⟨9, 20, 4⟩ 0 7) (.compress 0) demoState
    { demoState with buffInSize := 6, buffIn := 1004, buffOutSize := 0, buffOut := 2020 }
    0 (by decide) (by decide) (by decide) (by decide) (by decide)⟩

/-! ## Status values (C2, C3) -/

/-- C2. A non-finalizing `compress` that returns, and whose native call
consumed at most the installed `avail_in()` bytes, returns `1` when all the
available input was consumed and `0` otherwise; the status is non-zero exactly
when `avail_in()` is `0` after the call. -/
theorem compress_continue_status (api : ZstdApi) (s s' : zstd_stream_wrapper) (st : Int)
    (h : s.compress api 0 = (.returned st, s'))
    (hle : ((Op.native api (.compress 0) s).inPos.val : Int) ≤ s.avail_in) :
    st = (if ((Op.native api (.compress 0) s).inPos.val : Int) = s.avail_in then 1 else 0) ∧
    (st ≠ 0 ↔ s'.avail_in = 0) := by
  change Op.run api (.compress 0) s = _ at h
  rw [run_not_error api _ s (returned_not_error api _ s s' st h)] at h
  obtain ⟨hst, rfl⟩ := Prod.mk.inj h
  obtain rfl := Outcome.returned.inj hst
  have hsz : s.avail_in = (s.buffInSize.val : Int) := by
    simp only [avail_in, toLong] at hle ⊢
    split at hle
    · rename_i hlt
      rw [if_pos hlt]
    · omega
  have hiff : ((Op.native api (.compress 0) s).inPos.val : Int) = s.avail_in ↔
      (Op.native api (.compress 0) s).inPos = s.buffInSize := by
    rw [hsz]
    constructor
    · intro hh; exact Fin.ext (by exact_mod_cast hh)
    · intro hh; rw [hh]
  have hzero : toLong (s.buffInSize - (Op.native api (.compress 0) s).inPos) = 0 ↔
      (Op.native api (.compress 0) s).inPos = s.buffInSize := by
    rw [toLong_eq_zero, sub_eq_zero]
    exact eq_comm
  simp only [avail_in, Op.retAfter, if_true, hzero]
  by_cases hq : (Op.native api (.compress 0) s).inPos = s.buffInSize
  · have hq' := hiff.mpr hq
    simp only [avail_in] at hq'
    rw [if_pos hq']
    simp [hq, ofBool, toInt]
  · have hq' : ¬ ((Op.native api (.compress 0) s).inPos.val : Int) = toLong s.buffInSize := by
      intro hh; exact hq (hiff.mp hh)
    rw [if_neg hq']
    simp [hq, ofBool, toInt]

theorem compress_continue_status_witness :
    (demoState.compress (constApi ⟨9, 20, 10⟩ 0 7) 0 =
        (.returned 1, { demoState with
          ret := 1, buffInSize := 0, buffIn := 1010, buffOutSize := 0, buffOut := 2020 }) ∧
      (10 : Int) ≤ demoState.avail_in) ∧
      ((1 : Int) = (if (10 : Int) = demoState.avail_in then 1 else 0) ∧
        ((1 : Int) ≠ 0 ↔ (0 : Int) = 0)) :=
  ⟨⟨by decide, by decide⟩,
   compress_continue_status (constApi ⟨9, 20, 10⟩ 0 7) demoState
    { demoState with
      ret := 1, buffInSize := 0, buffIn := 1010, buffOutSize := 0, buffOut := 2020 }
    1 (by decide) (by decide)⟩

theorem toInt_eq_zero (x : size_t) : toInt x = 0 ↔ x.val % 2 ^ 32 = 0 := by
  simp only [toInt]
  split <;> omega

/-- C3. A `decompress` that returns gives the native return value narrowed to
`int`. `ZSTD_decompressStream` returns `0`, an error code, or a hint of the
next input size, which is below `2 ^ 32`; for every such value, those that do
not fit in an `int` included, the status is `0` if and only if the native call
reported `0`, and the status is `0` if and only if `done()` is true right
after the call. -/
theorem decompress_status (api : ZstdApi) (s s' : zstd_stream_wrapper) (st : Int)
    (h : s.decompress api = (.returned st, s'))
    (hlt : (Op.native api .decompress s).ret.val < 2 ^ 32) :
    st = toInt (Op.native api .decompress s).ret ∧
    (st = 0 ↔ (Op.native api .decompress s).ret = 0) ∧
    (s'.done = true ↔ st = 0) ∧
    (s'.done = true ↔ (Op.native api .decompress s).ret = 0) := by
  change Op.run api .decompress s = _ at h
  rw [run_not_error api _ s (returned_not_error api _ s s' st h)] at h
  obtain ⟨hst, rfl⟩ := Prod.mk.inj h
  obtain rfl := Outcome.returned.inj hst
  have hr : Op.retAfter api .decompress s = (Op.native api .decompress s).ret := by
    simp [Op.retAfter]
  have hd : (decide ((Op.native api .decompress s).ret = 0) = true) ↔
      (Op.native api .decompress s).ret = 0 := by simp
  have hz : (Op.native api .decompress s).ret.val % 2 ^ 32 = 0 ↔
      (Op.native api .decompress s).ret = 0 := by
    constructor
    · intro hm
      apply Fin.ext
      simp only [Fin.val_zero]
      omega
    · intro h0
      rw [h0]
      rfl
  simp only [hr, done, stream_end, toInt_eq_zero, hd]
  exact ⟨trivial, hz, hz.symm, trivial⟩

theorem decompress_status_witness :
    (demoState.decompress (constApi ⟨2147483648, 3, 5⟩ 0 7) =
        (.returned (-2147483648), { demoState with
          ret := 2147483648, buffInSize := 5, buffIn := 1005,
          buffOutSize := 17, buffOut := 2003 }) ∧
      (2147483648 : size_t).val < 2 ^ 32) ∧
      ((-2147483648 : Int) = toInt 2147483648 ∧
        ((-2147483648 : Int) = 0 ↔ (2147483648 : size_t) = 0) ∧
        (decide ((2147483648 : size_t) = 0) = true ↔ (-2147483648 : Int) = 0) ∧
        (decide ((2147483648 : size_t) = 0) = true ↔ (2147483648 : size_t) = 0)) :=
  ⟨⟨by decide, by decide⟩,
   decompress_status (constApi ⟨2147483648, 3, 5⟩ 0 7) demoState
    { demoState with
      ret := 2147483648, buffInSize := 5, buffIn := 1005, buffOutSize := 17, buffOut := 2003 }
    (-2147483648) (by decide) (by decide)⟩

/-! ## End of stream (C4) -/

/-- The value of `done()` after an operation that returns: `stream_end()` and
`done()` agree; after `decompress` and after a finalizing `compress` they test
the native return value against `0`; after a non-finalizing `compress` they
test `input.pos == input.size`, which has overwritten `ret`, against `0`. -/
theorem done_after_returned (api : ZstdApi) (op : Op) (s s' : zstd_stream_wrapper) (st : Int)
    (h : op.run api s = (.returned st, s')) :
    s'.stream_end = s'.done ∧
    (op ≠ .compress 0 → (s'.done = true ↔ (op.native api s).ret = 0)) ∧
    (op = .compress 0 → (s'.done = true ↔ (op.native api s).inPos ≠ s.buffInSize)) := by
  rw [run_not_error api op s (returned_not_error api op s s' st h)] at h
  obtain ⟨-, rfl⟩ := Prod.mk.inj h
  refine ⟨rfl, ?_, ?_⟩
  · intro hop
    simp [done, stream_end, Op.retAfter, hop]
  · intro hop
    by_cases hq : (op.native api s).inPos = s.buffInSize
    · simp [done, stream_end, Op.retAfter, hop, ofBool, hq]
    · simp [done, stream_end, Op.retAfter, hop, ofBool, hq]

/-- C4, at the failing input. A non-finalizing `compress` on 10 bytes of input
and 20 bytes of output room: when the native call fills the output, consumes 5
of the 10 bytes and returns `4` (bytes still to flush), the call returns and
`stream_end()` and `done()` are true although the native call did not return
`0` and input is left; when the native call consumes all 10 bytes and returns
`0` (everything flushed), `stream_end()` and `done()` are false. -/
theorem compress_continue_done_inverted :
    ((Op.native (constApi ⟨4, 20, 5⟩ 0 7) (.compress 0) demoState).ret = 4 ∧
      (Op.native (constApi ⟨4, 20, 5⟩ 0 7) (.compress 0) demoState).inPos = 5 ∧
      demoState.avail_in = 10 ∧
      (demoState.compress (constApi ⟨4, 20, 5⟩ 0 7) 0).1 = .returned 0 ∧
      (demoState.compress (constApi ⟨4, 20, 5⟩ 0 7) 0).2.avail_in = 5 ∧
      (demoState.compress (constApi ⟨4, 20, 5⟩ 0 7) 0).2.stream_end = true ∧
      (demoState.compress (constApi ⟨4, 20, 5⟩ 0 7) 0).2.done = true) ∧
    ((Op.native (constApi ⟨0, 3, 10⟩ 0 7) (.compress 0) demoState).ret = 0 ∧
      (Op.native (constApi ⟨0, 3, 10⟩ 0 7) (.compress 0) demoState).inPos = 10 ∧
      (demoState.compress (constApi ⟨0, 3, 10⟩ 0 7) 0).1 = .returned 1 ∧
      (demoState.compress (constApi ⟨0, 3, 10⟩ 0 7) 0).2.avail_in = 0 ∧
      (demoState.compress (constApi ⟨0, 3, 10⟩ 0 7) 0).2.stream_end = false ∧
      (demoState.compress (constApi ⟨0, 3, 10⟩ 0 7) 0).2.done = false) := by
  decide

/-! ## Errors of the stream operations (C5, C10) -/

/-- C5. Error translation: each of `decompress`, `compress(0)` and a
finalizing `compress` throws a `zstdException` if and only if `ZSTD_isError`
holds of the value its native call returned, and the exception is the one
built from that value; it returns a status if and only if `ZSTD_isError` does
not hold of that value. -/
theorem error_translation (api : ZstdApi) (op : Op) (s : zstd_stream_wrapper) :
    ((∃ e, (op.run api s).1 = .thrown e) ↔
      api.ZSTD_isError (op.native api s).ret = true) ∧
    ((∃ st, (op.run api s).1 = .returned st) ↔
      api.ZSTD_isError (op.native api s).ret = false) ∧
    (∀ e, (op.run api s).1 = .thrown e → e = .ofCode (op.native api s).ret) := by
  cases hb : api.ZSTD_isError (op.native api s).ret with
  | true =>
    rw [run_error api op s hb]
    simp
  | false =>
    rw [run_not_error api op s hb]
    simp

/-- C10. Cursor atomicity on error: when `decompress` or `compress` (either
mode) throws, and the library does not count `0` among its error codes, the
wrapper is as before the call except for `ret`, which holds the error code the
native call returned: `next_in`, `avail_in`, `next_out` and `avail_out` are
unchanged whatever `input.pos` and `output.pos` the native call reported, and
`stream_end()` and `done()` are false. -/
theorem cursor_atomicity_on_error (api : ZstdApi) (op : Op) (s s' : zstd_stream_wrapper)
    (e : zstdException) (h0 : api.ZSTD_isError 0 = false)
    (h : op.run api s = (.thrown e, s')) :
    s'.next_in = s.next_in ∧ s'.avail_in = s.avail_in ∧
    s'.next_out = s.next_out ∧ s'.avail_out = s.avail_out ∧
    s' = { s with ret := (op.native api s).ret } ∧
    api.ZSTD_isError s'.ret = true ∧
    s'.stream_end = false ∧ s'.done = false := by
  have hb : api.ZSTD_isError (op.native api s).ret = true :=
    thrown_is_error api op s e (by rw [h])
  rw [run_error api op s hb] at h
  obtain ⟨-, rfl⟩ := Prod.mk.inj h
  have hne : (op.native api s).ret ≠ 0 := by
    intro hz
    rw [hz, h0] at hb
    exact Bool.noConfusion hb
  refine ⟨rfl, rfl, rfl, rfl, rfl, hb, ?_, ?_⟩ <;> simp [done, stream_end, hne]

theorem cursor_atomicity_on_error_witness :
    (zstdIsError 0 = false ∧
      Op.run (constApi ⟨18446744073709551596, 3, 5⟩ 0 7) (.compress 0) demoState =
        (.thrown (.ofCode 18446744073709551596),
          { demoState with ret := 18446744073709551596 })) ∧
      (demoState.buffIn = demoState.next_in ∧ toLong demoState.buffInSize = demoState.avail_in ∧
        demoState.buffOut = demoState.next_out ∧
        toLong demoState.buffOutSize = demoState.avail_out ∧
        ({ demoState with ret := 18446744073709551596 } : zstd_stream_wrapper) =
          { demoState with
            ret := (Op.native (constApi ⟨18446744073709551596, 3, 5⟩ 0 7)
              (.compress 0) demoState).ret } ∧
        zstdIsError 18446744073709551596 = true ∧
        decide ((18446744073709551596 : size_t) = 0) = false ∧
        decide ((18446744073709551596 : size_t) = 0) = false) :=
  ⟨⟨by decide, by decide⟩,
   cursor_atomicity_on_error (constApi ⟨18446744073709551596, 3, 5⟩ 0 7) (.compress 0)
    demoState { demoState with ret := 18446744073709551596 }
    (.ofCode 18446744073709551596) (by decide) (by decide)⟩

/-! ## Finalizing (C6) -/

/-- C6. Finalizing consumes no input: whatever `ZSTD_endStream` returns and
reports, a `compress` with non-zero `endStream` leaves `next_in()` and
`avail_in()` as they were; the wrapper after the call differs from the one
before it in `ret`, `buffOut` and `buffOutSize` at most. -/
theorem finalize_consumes_no_input (api : ZstdApi) (s : zstd_stream_wrapper) (endStream : Int)
    (he : endStream ≠ 0) :
    (s.compress api endStream).2.next_in = s.next_in ∧
    (s.compress api endStream).2.avail_in = s.avail_in ∧
    ∃ r p n, (s.compress api endStream).2 =
      { s with ret := r, buffOut := p, buffOutSize := n } := by
  simp only [compress, he, ne_eq, not_false_eq_true, if_true]
  split
  · exact ⟨rfl, rfl, _, _, _, rfl⟩
  · exact ⟨rfl, rfl, _, _, _, rfl⟩

theorem finalize_consumes_no_input_witness :
    (1 : Int) ≠ 0 ∧
      ((demoState.compress (constApi ⟨6, 20, 9⟩ 0 7) 1).2.next_in = demoState.next_in ∧
        (demoState.compress (constApi ⟨6, 20, 9⟩ 0 7) 1).2.avail_in = demoState.avail_in ∧
        ∃ r p n, (demoState.compress (constApi ⟨6, 20, 9⟩ 0 7) 1).2 =
          { demoState with ret := r, buffOut := p, buffOutSize := n }) :=
  ⟨by decide, finalize_consumes_no_input (constApi ⟨6, 20, 9⟩ 0 7) demoState 1 (by decide)⟩

/-! ## Construction (C8) -/

/-- The constructor throws exactly when the context cannot be allocated or
`ZSTD_isError` holds of `ret`, which in the encode direction is what
`ZSTD_CCtx_setParameter` returned and in the decode direction is what the
storage of the object held. -/
theorem construct_thrown_iff (api : ZstdApi) (mem : zstd_stream_wrapper) (isIn : Bool)
    (level : Int) (lib : ZstdLib) :
    (∃ e, (construct api mem isIn level lib).1 = .thrown e) ↔
      (isIn = true ∧ (api.newDCtx lib = 0 ∨ api.ZSTD_isError mem.ret = true)) ∨
      (isIn = false ∧ (api.newCCtx lib = 0 ∨
        api.ZSTD_isError (api.ZSTD_CCtx_setParameter (api.newCCtx lib) ZSTD_c_compressionLevel level) = true)) := by
  cases isIn with
  | true =>
    by_cases hp : api.newDCtx lib = 0
    · simp [construct, ZSTD_createDCtx, hp]
    · cases hb : api.ZSTD_isError mem.ret <;> simp [construct, ZSTD_createDCtx, hp, hb]
  | false =>
    by_cases hp : api.newCCtx lib = 0
    · simp [construct, ZSTD_createCCtx, hp]
    · cases hb : api.ZSTD_isError (api.ZSTD_CCtx_setParameter (api.newCCtx lib) ZSTD_c_compressionLevel level) <;>
        simp [construct, ZSTD_createCCtx, hp, hb]

/-- The destructor of an object that was constructed frees the context the
constructor created: the contexts alive after it are those alive before the
construction. -/
theorem destroy_after_construct (api : ZstdApi) (mem self : zstd_stream_wrapper)
    (isIn : Bool) (level : Int) (lib lib' : ZstdLib)
    (h : construct api mem isIn level lib = (.object self, lib')) :
    destroy self lib' = lib := by
  cases isIn with
  | true =>
    by_cases hp : api.newDCtx lib = 0
    · simp [construct, ZSTD_createDCtx, hp] at h
    · cases hb : api.ZSTD_isError mem.ret with
      | true => simp [construct, ZSTD_createDCtx, hp, hb] at h
      | false =>
        simp only [construct, ZSTD_createDCtx, hp, hb, if_true, if_false] at h
        obtain ⟨h1, rfl⟩ := Prod.mk.inj h
        obtain rfl := Constructed.object.inj h1
        simp [destroy, ZSTD_freeDCtx]
  | false =>
    by_cases hp : api.newCCtx lib = 0
    · simp [construct, ZSTD_createCCtx, hp] at h
    · cases hb : api.ZSTD_isError
          (api.ZSTD_CCtx_setParameter (api.newCCtx lib) ZSTD_c_compressionLevel level) with
      | true => simp [construct, ZSTD_createCCtx, hp, hb] at h
      | false =>
        simp only [construct, ZSTD_createCCtx, hp, hb, if_true, if_false] at h
        obtain ⟨h1, rfl⟩ := Prod.mk.inj h
        obtain rfl := Constructed.object.inj h1
        simp [destroy, ZSTD_freeCCtx]

/-- C8, at the failing input: in the decode direction `ZSTD_createDCtx`
returns the non-null context `7`, the storage of the object holds
`(size_t)-1` where `ret` lives, and the constructor throws the exception built
from that stale value (the decoder context stays alive). -/
theorem construct_decode_stale_ret :
    (constApi ⟨0, 0, 0⟩ 0 7).newDCtx ⟨[], []⟩ ≠ 0 ∧
      construct (constApi ⟨0, 0, 0⟩ 0 7) staleStorage true 3 ⟨[], []⟩ =
        (.thrown (.ofCode 18446744073709551615), ⟨[7], []⟩) := by
  decide

end bxz
